import Mathlib

/-!
Verification of the DeepSeek-OCR vLLM server request-processing pipeline
(`docker/start_server.py`): sampling-parameter resolution, PDF
rasterization, per-page fan-out with failure isolation, and batch result
aggregation.

The embedding is shallow: Python floats become `ℚ` (only comparisons,
`min`/`max` and equality occur, so this is exact on the values of
interest), Python ints become `Int`/`Nat`, raising functions become
`Except String`-valued functions, and the external collaborators
(PyMuPDF's `fitz`, the vLLM engine) become oracle parameters.
-/

namespace OCRServer

/-- Shallow embedding of vLLM's `SamplingParams` restricted to the fields
`start_server.py` reads or writes.  `logits_processors` is an opaque
payload, so it is a type parameter: the code only ever copies it. -/
structure SamplingParams (α : Type) where
  temperature : ℚ
  top_p : ℚ
  max_tokens : Int
  skip_special_tokens : Bool
  include_stop_str_in_output : Bool
  stop : List String
  logits_processors : α
deriving DecidableEq

/-- The base `sampling_params` built in `initialize_model`
(`start_server.py` lines 185-192): temperature 0.1, top_p 0.95,
max_tokens 1500, skip_special_tokens False, include_stop_str_in_output
True; `stop` is left at vLLM's default (no stop strings). -/
def initial_sampling_params : SamplingParams Unit :=
  { temperature := 1/10
    top_p := 19/20
    max_tokens := 1500
    skip_special_tokens := false
    include_stop_str_in_output := true
    stop := []
    logits_processors := () }

/-- Embedding of `get_sampling_params` (`start_server.py` lines 65-109):
take each override if supplied else the base value, clamp temperature to
[0, 2], top_p to [0, 1], max_tokens to [1, 8192]; if the clamped triple
equals the base triple return the base object itself, otherwise build a
new `SamplingParams` copying the remaining fields from the base. -/
def get_sampling_params {α : Type} (base : SamplingParams α)
    (temperature : Option ℚ) (top_p : Option ℚ) (max_tokens : Option Int) :
    SamplingParams α :=
  let temp := match temperature with
    | none => base.temperature
    | some t => t
  let tp := match top_p with
    | none => base.top_p
    | some t => t
  let mt := match max_tokens with
    | none => base.max_tokens
    | some m => m
  let temp := max 0 (min 2 temp)
  let tp := max 0 (min 1 tp)
  let mt := max 1 (min 8192 mt)
  if temp = base.temperature ∧ tp = base.top_p ∧ mt = base.max_tokens then
    base
  else
    { temperature := temp
      top_p := tp
      max_tokens := mt
      skip_special_tokens := base.skip_special_tokens
      include_stop_str_in_output := base.include_stop_str_in_output
      stop := base.stop
      logits_processors := base.logits_processors }

/-- Bool test `pat` is a prefix of `s` (Python `str.startswith`, used here
only as the matching step of `str.replace`). -/
def startsWith : List Char → List Char → Bool
  | [], _ => true
  | _ :: _, [] => false
  | p :: ps, c :: cs => p = c && startsWith ps cs

/-- Bool test `pat` occurs as a contiguous substring of `s` (Python's
`pat in s`). -/
def occurs (pat : List Char) : List Char → Bool
  | [] => pat.isEmpty
  | c :: rest => startsWith pat (c :: rest) || occurs pat rest

/-- One left-to-right pass removing every non-overlapping occurrence of
`pat` (Python's `s.replace(pat, '')`): at each position, if `pat` matches
it is consumed and scanning resumes after it, otherwise the character is
kept.  `fuel` bounds the recursion; each step consumes at least one
character, so `fuel = s.length` is enough and exhausted fuel returns the
remainder unchanged. -/
def removeAllFuel (pat : List Char) : Nat → List Char → List Char
  | _, [] => []
  | 0, s => s
  | fuel + 1, c :: rest =>
    if pat ≠ [] ∧ startsWith pat (c :: rest) then
      removeAllFuel pat fuel (rest.drop (pat.length - 1))
    else
      c :: removeAllFuel pat fuel rest

/-- Python's `s.replace(pat, '')` for a non-empty `pat`. -/
def removeAll (pat s : List Char) : List Char :=
  removeAllFuel pat s.length s

/-- The end-of-sequence sentinel token text stripped by
`process_single_image` (`start_server.py` line 269): fullwidth vertical
bar U+FF5C and lower one-eighth block U+2581. -/
def eosSentinel : List Char := "<｜end▁of▁sentence｜>".toList

/-- Embedding of the result clean-up in `process_single_image`
(`start_server.py` lines 267-273): if the sentinel occurs in the raw
output, remove every occurrence via `str.replace`, else leave the output
unchanged. -/
def cleanResult (s : String) : String :=
  if occurs eosSentinel s.toList then ⟨removeAll eosSentinel s.toList⟩ else s

/-- Embedding of `process_single_image` (`start_server.py` lines
226-273) for one page image.  The tokenizer call, `llm.generate`, and the
empty-output `RuntimeError` check are absorbed into the oracle
`generate : Img → Except String String` (error = the call raised, payload
= `str(e)`); on success the sentinel clean-up is applied to the raw
output. -/
def process_single_image {Img : Type} (generate : Img → Except String String)
    (image : Img) : Except String String :=
  match generate image with
  | .error e => .error e
  | .ok raw => .ok (cleanResult raw)

/-- Embedding of Pydantic `OCRResponse` (`start_server.py` lines
111-115): the per-page (or per-image) result record.  Fields not passed
at a construction site default to `none`, as in the source. -/
structure OCRResponse where
  success : Bool
  result : Option String := none
  error : Option String := none
  page_count : Option Nat := none
deriving DecidableEq

/-- Embedding of Pydantic `BatchOCRResponse` (`start_server.py` lines
117-121): the whole-document result. -/
structure BatchOCRResponse where
  success : Bool
  results : List OCRResponse
  total_pages : Nat
  filename : String
deriving DecidableEq

/-- A decoded PDF document as PyMuPDF presents it to
`pdf_to_images_high_quality`: an ordered sequence of pages (abstract
type `Page`); `page_count` is its length and `pdf_document[i]` its `i`-th
element. -/
structure PdfDocument (Page : Type) where
  pages : List Page
deriving DecidableEq

/-- Oracle for the external `fitz` library as used by
`pdf_to_images_high_quality`: `openDoc` is the outcome of
`fitz.open` on this request's bytes (error = it raised, payload =
`str(e)`), and `render p zoom` is the outcome of
`page.get_pixmap(matrix=fitz.Matrix(zoom, zoom), alpha=False)` composed
with the PNG round-trip into a PIL image (error = any of those raised). -/
structure FitzEnv (Page Img : Type) where
  openDoc : Except String (PdfDocument Page)
  render : Page → ℚ → Except String Img

/-- Resource effects of one `pdf_to_images_high_quality` call:
whether `pdf_document.close()` ran, and whether the temporary PDF file
was unlinked. -/
structure RasterEffects where
  docClosed : Bool
  tempUnlinked : Bool
deriving DecidableEq

/-- The page loop of `pdf_to_images_high_quality` (`start_server.py`
lines 210-217): render each page in order at the given zoom, appending
to `images`; the first raising `get_pixmap` aborts the loop with its
exception. -/
def rasterLoop {Page Img : Type} (render : Page → ℚ → Except String Img)
    (zoom : ℚ) : List Page → Except String (List Img)
  | [] => .ok []
  | p :: rest =>
    match render p zoom with
    | .error e => .error e
    | .ok img =>
      match rasterLoop render zoom rest with
      | .error e => .error e
      | .ok imgs => .ok (img :: imgs)

/-- Embedding of `pdf_to_images_high_quality` (`start_server.py` lines
196-224).  The body is `try: open; loop; close() finally: unlink`; so the
temporary file is unlinked on every path, while `pdf_document.close()`
runs only after the loop finishes without raising.  Returns the
`List Img` result (or the propagated exception) together with the
resource effects. -/
def pdf_to_images_high_quality {Page Img : Type} (env : FitzEnv Page Img)
    (dpi : ℚ) : Except String (List Img) × RasterEffects :=
  match env.openDoc with
  | .error e => (.error e, ⟨false, true⟩)
  | .ok pdf_document =>
    let zoom := dpi / 72
    match rasterLoop env.render zoom pdf_document.pages with
    | .error e => (.error e, ⟨false, true⟩)
    | .ok images => (.ok images, ⟨true, true⟩)

/-- The per-page loop of `process_pdf_endpoint` (`start_server.py` lines
388-410), with `page_num` the running `enumerate` counter: each page is
processed inside its own `try`/`except`; success appends
`OCRResponse(success=True, result=..., page_count=page_num+1)`, an
exception appends `OCRResponse(success=False,
error=f"Page {page_num+1} error: {str(e)}", page_count=page_num+1)`. -/
def pageLoop {Img : Type} (generate : Img → Except String String) :
    Nat → List Img → List OCRResponse
  | _, [] => []
  | page_num, image :: rest =>
    (match process_single_image generate image with
      | .ok result =>
        { success := true, result := some result, page_count := some (page_num + 1) }
      | .error e =>
        { success := false
          error := some ("Page " ++ toString (page_num + 1) ++ " error: " ++ e)
          page_count := some (page_num + 1) })
    :: pageLoop generate (page_num + 1) rest

/-- Embedding of `process_pdf_endpoint` (`start_server.py` lines
350-427).  Rasterize at dpi 144; an exception from reading or
rasterizing hits the outer `except` which returns `success=False`,
`total_pages=0` and a single error-only entry; an empty image list
returns `success=False, results=[], total_pages=0`; otherwise the page
loop runs and the batch is returned with `success=True`,
`total_pages=len(images)`. -/
def process_pdf_endpoint {Page Img : Type} (env : FitzEnv Page Img)
    (generate : Img → Except String String) (filename : String) :
    BatchOCRResponse :=
  match (pdf_to_images_high_quality env 144).1 with
  | .error e =>
    { success := false
      results := [{ success := false, error := some e }]
      total_pages := 0
      filename := filename }
  | .ok images =>
    if images.isEmpty then
      { success := false, results := [], total_pages := 0, filename := filename }
    else
      { success := true
        results := pageLoop generate 0 images
        total_pages := images.length
        filename := filename }

/-- Embedding of `process_image_endpoint` (`start_server.py` lines
296-348).  `decodeImage` is the outcome of reading the upload and
`Image.open(...).convert('RGB')` (error = raised); a successful inference
returns `success=True, result=..., page_count=1`; any exception hits the
`except` which returns `success=False, error=str(e)` with `page_count`
left unset. -/
def process_image_endpoint {Img : Type} (decodeImage : Except String Img)
    (generate : Img → Except String String) : OCRResponse :=
  match decodeImage with
  | .error e => { success := false, error := some e }
  | .ok image =>
    match process_single_image generate image with
    | .ok result => { success := true, result := some result, page_count := some 1 }
    | .error e => { success := false, error := some e }

/-- A 3-page test document environment: `fitz.open` succeeds with pages
`0, 1, 2` and each page renders to its own page number. -/
def threePageEnv : FitzEnv Nat Nat :=
  { openDoc := .ok ⟨[0, 1, 2]⟩, render := fun p _ => .ok p }

/-- A test inference oracle where only the unit at index 1 raises
(`"boom"`); every other unit succeeds. -/
def secondPageFails : Nat → Except String String :=
  fun n => if n = 1 then .error "boom" else .ok ("text" ++ toString n)

/-- A corrupt-document environment: `fitz.open` itself raises. -/
def openFailsEnv : FitzEnv Unit Unit :=
  { openDoc := .error "cannot open broken document", render := fun _ _ => .ok () }

/-- A one-page document environment whose single `get_pixmap` call
raises. -/
def renderFailsEnv : FitzEnv Unit Unit :=
  { openDoc := .ok ⟨[()]⟩, render := fun _ _ => .error "render failed" }

section Helpers

/-- If the pattern occurs nowhere in `s`, the replace scan keeps every
character, whatever the fuel. -/
lemma removeAllFuel_of_not_occurs (pat : List Char) :
    ∀ (fuel : Nat) (s : List Char), occurs pat s = false →
      removeAllFuel pat fuel s = s := by
  intro fuel
  induction fuel with
  | zero => intro s _; cases s <;> rfl
  | succ n ih =>
    intro s h
    cases s with
    | nil => rfl
    | cons c rest =>
      have h' : startsWith pat (c :: rest) = false ∧ occurs pat rest = false := by
        simpa [occurs] using h
      rw [removeAllFuel, if_neg, ih rest h'.2]
      intro hc
      rw [h'.1] at hc
      exact Bool.false_ne_true hc.2

/-- `cleanResult` leaves a sentinel-free string unchanged. -/
lemma cleanResult_of_not_occurs (s : String)
    (h : occurs eosSentinel s.toList = false) : cleanResult s = s := by
  unfold String.toList at h
  simp [cleanResult, h]

/-- If every render succeeds pointwise, the raster loop returns the
per-page renders in document order. -/
lemma rasterLoop_ok {Page Img : Type} (render : Page → ℚ → Except String Img)
    (r : Page → ℚ → Img) (zoom : ℚ) (hr : ∀ p z, render p z = .ok (r p z)) :
    ∀ pages : List Page,
      rasterLoop render zoom pages = .ok (pages.map fun p => r p zoom) := by
  intro pages
  induction pages with
  | nil => rfl
  | cons p rest ih => simp [rasterLoop, hr p zoom, ih]

/-- The page loop produces one result per page image. -/
lemma pageLoop_length {Img : Type} (generate : Img → Except String String) :
    ∀ (n : Nat) (images : List Img),
      (pageLoop generate n images).length = images.length
  | _, [] => rfl
  | n, _ :: rest => by
    simp [pageLoop, pageLoop_length generate (n + 1) rest]

/-- Every entry the page loop produces carries the one-based page count
`n + i + 1`, where `n` is the starting counter and `i` the position. -/
lemma pageLoop_page_count {Img : Type} (generate : Img → Except String String) :
    ∀ (images : List Img) (n i : Nat) (r : OCRResponse),
      (pageLoop generate n images)[i]? = some r → r.page_count = some (n + i + 1)
  | [], _, i, r, h => by simp [pageLoop] at h
  | img :: rest, n, 0, r, h => by
    rw [pageLoop, List.getElem?_cons_zero, Option.some.injEq] at h
    cases hp : process_single_image generate img <;> rw [hp] at h <;> subst h <;> rfl
  | img :: rest, n, i + 1, r, h => by
    rw [pageLoop, List.getElem?_cons_succ] at h
    have := pageLoop_page_count generate rest (n + 1) i r h
    rw [this]
    congr 1
    omega

/-- Frame property of the page loop: entry `i` depends only on the
oracle's outcome at image `i`. -/
lemma pageLoop_frame {Img : Type} (g₁ g₂ : Img → Except String String) :
    ∀ (images : List Img) (n i : Nat) (img : Img),
      images[i]? = some img → g₁ img = g₂ img →
      (pageLoop g₁ n images)[i]? = (pageLoop g₂ n images)[i]?
  | [], _, i, img, h, _ => by simp at h
  | a :: rest, n, 0, img, h, hg => by
    rw [List.getElem?_cons_zero, Option.some.injEq] at h
    subst h
    simp [pageLoop, process_single_image, hg]
  | a :: rest, n, i + 1, img, h, hg => by
    rw [List.getElem?_cons_succ] at h
    simpa [pageLoop] using pageLoop_frame g₁ g₂ rest (n + 1) i img h hg

/-- The exact entry the page loop stores for a page whose inference call
raises `e`. -/
lemma pageLoop_error_entry {Img : Type} (generate : Img → Except String String) :
    ∀ (images : List Img) (n i : Nat) (img : Img) (e : String),
      images[i]? = some img → generate img = .error e →
      (pageLoop generate n images)[i]?
        = some { success := false
                 error := some ("Page " ++ toString (n + i + 1) ++ " error: " ++ e)
                 page_count := some (n + i + 1) }
  | [], _, i, img, e, h, _ => by simp at h
  | a :: rest, n, 0, img, e, h, hg => by
    rw [List.getElem?_cons_zero, Option.some.injEq] at h
    subst h
    simp [pageLoop, process_single_image, hg]
  | a :: rest, n, i + 1, img, e, h, hg => by
    rw [List.getElem?_cons_succ] at h
    have := pageLoop_error_entry generate rest (n + 1) i img e h hg
    rw [pageLoop, List.getElem?_cons_succ, this]
    have harith : n + 1 + i + 1 = n + (i + 1) + 1 := by omega
    rw [harith]

end Helpers

/-- C4: sampling resolution takes each supplied override (else the base
value) and clamps the triple — temperature to [0, 2], top_p to [0, 1],
max_tokens to [1, 8192] — for every base and every override combination;
out-of-range inputs are clamped, never rejected (the function is total).
In particular, over the server's base configuration, a temperature
override of 5.0 yields 2.0, max_tokens 0 yields 1, and top_p -1 yields
0.0. -/
theorem c4_sampling_override_clamp {α : Type} (base : SamplingParams α)
    (temperature top_p : Option ℚ) (max_tokens : Option Int) :
    (get_sampling_params base temperature top_p max_tokens).temperature
        = max 0 (min 2 (temperature.getD base.temperature)) ∧
    (get_sampling_params base temperature top_p max_tokens).top_p
        = max 0 (min 1 (top_p.getD base.top_p)) ∧
    (get_sampling_params base temperature top_p max_tokens).max_tokens
        = max 1 (min 8192 (max_tokens.getD base.max_tokens)) ∧
    (get_sampling_params initial_sampling_params (some 5) none none).temperature = 2 ∧
    (get_sampling_params initial_sampling_params none none (some 0)).max_tokens = 1 ∧
    (get_sampling_params initial_sampling_params none (some (-1)) none).top_p = 0 := by
  refine ⟨?_, ?_, ?_,
      by simp only [get_sampling_params, initial_sampling_params]; norm_num,
      by simp only [get_sampling_params, initial_sampling_params]; norm_num,
      by simp only [get_sampling_params, initial_sampling_params]; norm_num⟩ <;>
    · cases temperature <;> cases top_p <;> cases max_tokens <;>
        · simp only [get_sampling_params, Option.getD_none, Option.getD_some]
          split_ifs with h
          · first
              | exact h.1.symm
              | exact h.2.1.symm
              | exact h.2.2.symm
          · rfl

/-- C5: if the clamped (temperature, top_p, max_tokens) triple equals the
base triple, `get_sampling_params` returns the base instance itself;
and in every case the returned configuration's stop sequences,
skip_special_tokens, include_stop_str_in_output, and logits_processors
are exactly the base's (copied verbatim when a new object is built).  The
base is never mutated: the embedding is a pure function of `base`. -/
theorem c5_reuse_base_or_copy_extras {α : Type} (base : SamplingParams α)
    (temperature top_p : Option ℚ) (max_tokens : Option Int) :
    ((max 0 (min 2 (temperature.getD base.temperature)) = base.temperature ∧
      max 0 (min 1 (top_p.getD base.top_p)) = base.top_p ∧
      max 1 (min 8192 (max_tokens.getD base.max_tokens)) = base.max_tokens) →
      get_sampling_params base temperature top_p max_tokens = base) ∧
    (get_sampling_params base temperature top_p max_tokens).stop = base.stop ∧
    (get_sampling_params base temperature top_p max_tokens).skip_special_tokens
        = base.skip_special_tokens ∧
    (get_sampling_params base temperature top_p max_tokens).include_stop_str_in_output
        = base.include_stop_str_in_output ∧
    (get_sampling_params base temperature top_p max_tokens).logits_processors
        = base.logits_processors := by
  refine ⟨fun h => ?_, ?_, ?_, ?_, ?_⟩
  · cases temperature <;> cases top_p <;> cases max_tokens <;>
      · simp only [Option.getD_none, Option.getD_some] at h
        simp only [get_sampling_params]
        split_ifs with hif
        all_goals first
          | rfl
          | exact absurd h hif
  · simp only [get_sampling_params]
    split_ifs <;> rfl
  · simp only [get_sampling_params]
    split_ifs <;> rfl
  · simp only [get_sampling_params]
    split_ifs <;> rfl
  · simp only [get_sampling_params]
    split_ifs <;> rfl

/-- Witness for C5 at a concrete input: with no overrides the base
configuration is returned unchanged, and with a changed temperature the
stop list is still copied from the base. -/
theorem c5_reuse_base_or_copy_extras_witness :
    get_sampling_params initial_sampling_params none none none
        = initial_sampling_params ∧
    (get_sampling_params initial_sampling_params (some 2) none none).stop
        = initial_sampling_params.stop :=
  ⟨(c5_reuse_base_or_copy_extras initial_sampling_params none none none).1
      (by simp only [Option.getD_none, initial_sampling_params]; norm_num),
   (c5_reuse_base_or_copy_extras initial_sampling_params (some 2) none none).2.1⟩

/-- C1: failure isolation.  Entry `i` of the dispatch loop depends only
on the inference oracle's outcome at unit `i` (so one unit raising
neither aborts nor alters any other unit's call), and concretely, for a
3-page document whose index-1 unit raises, the batch has
`total_pages = 3`, per-page success flags `[true, false, true]`, and a
non-empty error message on the failed page. -/
theorem c1_failure_isolation :
    (∀ (Img : Type) (g₁ g₂ : Img → Except String String) (images : List Img)
        (n i : Nat) (img : Img),
        images[i]? = some img → g₁ img = g₂ img →
        (pageLoop g₁ n images)[i]? = (pageLoop g₂ n images)[i]?) ∧
    (process_pdf_endpoint threePageEnv secondPageFails "doc.pdf").total_pages = 3 ∧
    ((process_pdf_endpoint threePageEnv secondPageFails "doc.pdf").results.map
        fun r => r.success) = [true, false, true] ∧
    ∃ e, ((process_pdf_endpoint threePageEnv secondPageFails "doc.pdf").results[1]?.bind
        fun r => r.error) = some e ∧ e ≠ "" := by
  refine ⟨?_, by decide, by decide, "Page 2 error: boom", by decide, by decide⟩
  intro Img g₁ g₂ images n i img h hg
  exact pageLoop_frame g₁ g₂ images n i img h hg

/-- Witness for C1: discharging the frame property's hypotheses at a
concrete input (two oracles that agree on the only image). -/
theorem c1_failure_isolation_witness :
    (pageLoop secondPageFails 0 [0])[0]?
      = (pageLoop (fun n => if n = 1 then .error "other" else .ok ("text" ++ toString n))
          0 [0])[0]? :=
  c1_failure_isolation.1 Nat secondPageFails
    (fun n => if n = 1 then .error "other" else .ok ("text" ++ toString n))
    [0] 0 0 0 (by decide) rfl

/-- C2 counterexample: on the catch-all error path (here `fitz.open`
raising), the returned batch has a one-element `results` sequence but
`total_pages = 0`, so `results.length = total_pages` does not hold on
every error path as the claim states. -/
theorem c2_results_length_counterexample :
    (process_pdf_endpoint openFailsEnv (fun _ => .ok "t") "bad.pdf").results.length = 1 ∧
    (process_pdf_endpoint openFailsEnv (fun _ => .ok "t") "bad.pdf").total_pages = 0 ∧
    (process_pdf_endpoint openFailsEnv (fun _ => .ok "t") "bad.pdf").results.length ≠
      (process_pdf_endpoint openFailsEnv (fun _ => .ok "t") "bad.pdf").total_pages := by
  decide

/-- C2 amended: on the success path the `results` sequence has length
`total_pages` and entry `i` carries the one-based page count `i + 1`
(so a failed page stays at its own index); on the failure paths
`total_pages = 0` and `results` is either empty (zero rasterized pages)
or a single error-tagged entry (document decode failure) — in the latter
case the length/total_pages equality fails. -/
theorem c2_results_indexed_amended {Page Img : Type} (env : FitzEnv Page Img)
    (generate : Img → Except String String) (filename : String) :
    ((process_pdf_endpoint env generate filename).success = true →
      (process_pdf_endpoint env generate filename).results.length
          = (process_pdf_endpoint env generate filename).total_pages ∧
      ∀ (i : Nat) (r : OCRResponse),
        (process_pdf_endpoint env generate filename).results[i]? = some r →
        r.page_count = some (i + 1)) ∧
    ((process_pdf_endpoint env generate filename).success = false →
      (process_pdf_endpoint env generate filename).total_pages = 0 ∧
      ((process_pdf_endpoint env generate filename).results = [] ∨
        ∃ e, (process_pdf_endpoint env generate filename).results
            = [{ success := false, error := some e }])) := by
  unfold process_pdf_endpoint
  cases hr : (pdf_to_images_high_quality env 144).1 with
  | error e =>
    refine ⟨fun hs => ?_, fun _ => ⟨rfl, Or.inr ⟨e, rfl⟩⟩⟩
    simp at hs
  | ok images =>
    cases images with
    | nil =>
      refine ⟨fun hs => ?_, fun _ => ⟨rfl, Or.inl rfl⟩⟩
      simp at hs
    | cons a rest =>
      refine ⟨fun _ => ⟨?_, ?_⟩, fun hs => ?_⟩
      · simpa using pageLoop_length generate 0 (a :: rest)
      · intro i r h
        simp only [List.isEmpty_cons, if_neg] at h
        simpa using pageLoop_page_count generate (a :: rest) 0 i r h
      · simp at hs

/-- Witness for C2 amended, discharging its hypotheses at concrete
inputs: the success branch on the 3-page document, and the failure
branch on the corrupt document. -/
theorem c2_results_indexed_amended_witness :
    (process_pdf_endpoint threePageEnv secondPageFails "doc.pdf").results.length
        = (process_pdf_endpoint threePageEnv secondPageFails "doc.pdf").total_pages ∧
    (process_pdf_endpoint openFailsEnv (fun _ => .ok "t") "bad.pdf").total_pages = 0 :=
  ⟨((c2_results_indexed_amended threePageEnv secondPageFails "doc.pdf").1 rfl).1,
   ((c2_results_indexed_amended openFailsEnv (fun _ => .ok "t") "bad.pdf").2 rfl).1⟩

/-- C3: the batch-level success flag is true exactly when rasterization
succeeded with at least one page; it never depends on the per-page
inference outcomes; a zero-page document yields
`success=false, total_pages=0, results=[]`; and a document whose bytes
cannot be parsed yields `success=false` with `total_pages=0`. -/
theorem c3_batch_success_iff_raster {Page Img : Type} (env : FitzEnv Page Img)
    (generate : Img → Except String String) (filename : String) :
    ((process_pdf_endpoint env generate filename).success = true ↔
      ∃ images, (pdf_to_images_high_quality env 144).1 = .ok images ∧ images ≠ []) ∧
    (∀ g₂ : Img → Except String String,
      (process_pdf_endpoint env generate filename).success
        = (process_pdf_endpoint env g₂ filename).success) ∧
    ((pdf_to_images_high_quality env 144).1 = .ok [] →
      process_pdf_endpoint env generate filename
        = { success := false, results := [], total_pages := 0, filename := filename }) ∧
    (∀ e, (pdf_to_images_high_quality env 144).1 = .error e →
      (process_pdf_endpoint env generate filename).success = false ∧
      (process_pdf_endpoint env generate filename).total_pages = 0) := by
  unfold process_pdf_endpoint
  cases hr : (pdf_to_images_high_quality env 144).1 with
  | error e =>
    refine ⟨by simp, fun g₂ => rfl, fun h => by simp at h, fun e' h => ⟨rfl, rfl⟩⟩
  | ok images =>
    cases images with
    | nil => refine ⟨by simp, fun g₂ => rfl, fun h => rfl, fun e' h => by simp at h⟩
    | cons a rest =>
      refine ⟨?_, fun g₂ => rfl, fun h => by simp at h, fun e' h => by simp at h⟩
      simp only [List.isEmpty_cons, if_neg]
      simp

/-- Witness for C3, discharging its hypotheses at concrete inputs: the
3-page document is reported successful even though one page's inference
fails, and the corrupt document is reported unsuccessful. -/
theorem c3_batch_success_iff_raster_witness :
    (process_pdf_endpoint threePageEnv secondPageFails "doc.pdf").success = true ∧
    (process_pdf_endpoint openFailsEnv (fun _ => .ok "t") "bad.pdf").success = false :=
  ⟨(c3_batch_success_iff_raster threePageEnv secondPageFails "doc.pdf").1.mpr
      ⟨[0, 1, 2], rfl, by decide⟩,
   ((c3_batch_success_iff_raster openFailsEnv (fun _ => .ok "t") "bad.pdf").2.2.2
      "cannot open broken document" rfl).1⟩

/-- C6: for a document with N decodable pages (every render succeeds),
rasterization returns exactly the N per-page renders in document order,
each produced at the scale factor dpi/72, so position `i` of the output
holds the render of page `i` for `i = 0..N-1`, with one independent
buffer per page. -/
theorem c6_rasterize_all_pages {Page Img : Type} (env : FitzEnv Page Img)
    (doc : PdfDocument Page) (r : Page → ℚ → Img) (dpi : ℚ)
    (hopen : env.openDoc = .ok doc)
    (hrender : ∀ p z, env.render p z = .ok (r p z)) :
    (pdf_to_images_high_quality env dpi).1
        = .ok (doc.pages.map fun p => r p (dpi / 72)) ∧
    (doc.pages.map fun p => r p (dpi / 72)).length = doc.pages.length ∧
    ∀ (i : Nat) (h : i < doc.pages.length),
      (doc.pages.map fun p => r p (dpi / 72))[i]? = some (r doc.pages[i] (dpi / 72)) := by
  refine ⟨?_, by simp, ?_⟩
  · unfold pdf_to_images_high_quality
    rw [hopen]
    simp [rasterLoop_ok env.render r (dpi / 72) hrender]
  · intro i h
    simp [List.getElem?_eq_getElem h]

/-- Witness for C6, discharging its hypotheses on a concrete two-page
document rendered at dpi 144 (scale factor 2). -/
theorem c6_rasterize_all_pages_witness :
    (pdf_to_images_high_quality
        ({ openDoc := .ok ⟨[10, 20]⟩, render := fun p z => .ok (p, z) } :
          FitzEnv Nat (Nat × ℚ)) 144).1
      = .ok [(10, 2), (20, 2)] :=
  (c6_rasterize_all_pages _ ⟨[10, 20]⟩ (fun p z => (p, z)) 144 rfl
      (fun _ _ => rfl)).1.trans (congrArg Except.ok (by norm_num))

/-- C7 counterexample: a one-page document opens successfully but its
render raises; the call propagates the exception with the document
handle never closed, so the handle is not "always released on every
error path". -/
theorem c7_doc_close_counterexample :
    renderFailsEnv.openDoc = .ok ⟨[()]⟩ ∧
    (pdf_to_images_high_quality renderFailsEnv 144).1 = .error "render failed" ∧
    (pdf_to_images_high_quality renderFailsEnv 144).2.docClosed = false :=
  ⟨rfl, rfl, rfl⟩

/-- C7 amended: the temporary PDF file is always unlinked before the
call returns or raises (the `finally` block), but the document handle is
closed exactly when the call returns successfully — on the error paths
(open failure, or a page render raising) `close()` never runs. -/
theorem c7_resource_release_amended {Page Img : Type} (env : FitzEnv Page Img)
    (dpi : ℚ) :
    (pdf_to_images_high_quality env dpi).2.tempUnlinked = true ∧
    ((pdf_to_images_high_quality env dpi).2.docClosed = true ↔
      ∃ images, (pdf_to_images_high_quality env dpi).1 = .ok images) := by
  unfold pdf_to_images_high_quality
  cases henv : env.openDoc with
  | error e => simp
  | ok doc =>
    cases hloop : rasterLoop env.render (dpi / 72) doc.pages with
    | error e => simp [hloop]
    | ok images => simp [hloop]

/-- Witness for C7 amended at a concrete input: the temporary file is
unlinked even when `fitz.open` raises. -/
theorem c7_resource_release_amended_witness :
    (pdf_to_images_high_quality openFailsEnv 144).2.tempUnlinked = true :=
  (c7_resource_release_amended openFailsEnv 144).1

/-- C8 counterexample: a page whose inference call raises `"boom"` is
stored with error message `"Page 1 error: boom"`, not the captured
message `"boom"` verbatim. -/
theorem c8_error_message_counterexample :
    ((pageLoop (fun _ : Unit => .error "boom") 0 [()])[0]?.bind fun r => r.error)
        = some "Page 1 error: boom" ∧
    ((pageLoop (fun _ : Unit => .error "boom") 0 [()])[0]?.bind fun r => r.error)
        ≠ some "boom" := by
  decide

/-- C8 amended: a page at index `i` whose inference call raises `e` is
stored with `success=false` and an error message consisting of the
page-identifying prefix `"Page {i+1} error: "` followed by the captured
message `e` — the captured message is preserved as a suffix, not
verbatim as the whole field. -/
theorem c8_error_message_amended {Img : Type} (generate : Img → Except String String)
    (images : List Img) (i : Nat) (img : Img) (e : String)
    (h : images[i]? = some img) (hg : generate img = .error e) :
    (pageLoop generate 0 images)[i]?
        = some { success := false
                 error := some ("Page " ++ toString (i + 1) ++ " error: " ++ e)
                 page_count := some (i + 1) } := by
  simpa using pageLoop_error_entry generate images 0 i img e h hg

/-- Witness for C8 amended, discharging its hypotheses on the 3-page
document whose index-1 unit raises `"boom"`. -/
theorem c8_error_message_amended_witness :
    (pageLoop secondPageFails 0 [0, 1, 2])[1]?
        = some { success := false, error := some "Page 2 error: boom",
                 page_count := some 2 } := by
  have h := c8_error_message_amended secondPageFails [0, 1, 2] 1 1 "boom" rfl rfl
  exact h.trans (by decide)

/-- C9 counterexample: for raw output `"a<｜end▁of▁sentence｜>b"` —
which has no trailing sentinel — the claim says the output is stored
unchanged, but the code stores `"ab"`: the mid-string sentinel occurrence
is removed too. -/
theorem c9_trailing_only_counterexample :
    process_single_image
        (fun _ : Unit => .ok ("a" ++ "<｜end▁of▁sentence｜>" ++ "b")) ()
        = .ok "ab" ∧
    ("a" ++ "<｜end▁of▁sentence｜>" ++ "b" : String) ≠ "ab" :=
  ⟨rfl, by decide⟩

/-- C9 amended: on success, every occurrence of the sentinel token text
(not only a trailing one) is removed from the raw output in one
left-to-right `str.replace` pass before it is stored; an output in which
the sentinel does not occur is stored unchanged, and in particular a
trailing sentinel is stripped. -/
theorem c9_sentinel_removed_amended :
    (∀ (Img : Type) (generate : Img → Except String String) (img : Img) (raw : String),
        generate img = .ok raw → occurs eosSentinel raw.toList = false →
        process_single_image generate img = .ok raw) ∧
    process_single_image
        (fun _ : Unit => .ok ("abc" ++ "<｜end▁of▁sentence｜>")) () = .ok "abc" ∧
    process_single_image
        (fun _ : Unit =>
          .ok ("a" ++ "<｜end▁of▁sentence｜>" ++ "b" ++ "<｜end▁of▁sentence｜>")) ()
        = .ok "ab" := by
  refine ⟨?_, rfl, rfl⟩
  intro Img generate img raw hg hocc
  unfold process_single_image
  rw [hg]
  show Except.ok (cleanResult raw) = Except.ok raw
  rw [cleanResult_of_not_occurs raw hocc]

/-- Witness for C9 amended, discharging its hypotheses on a
sentinel-free raw output. -/
theorem c9_sentinel_removed_amended_witness :
    process_single_image (fun _ : Unit => .ok "plain text") () = .ok "plain text" :=
  c9_sentinel_removed_amended.1 Unit (fun _ => .ok "plain text") () "plain text" rfl
    (by decide)

/-- C10: every per-page result the PDF page loop produces (reached
whenever the batch reports success) carries `page_count = i + 1`, the
one-based position, for successful and failed pages alike; the
single-image endpoint sets `page_count = 1` on success and leaves it
unset (`none`) on failure. -/
theorem c10_page_count_one_based :
    (∀ (Page Img : Type) (env : FitzEnv Page Img)
        (generate : Img → Except String String) (filename : String)
        (i : Nat) (r : OCRResponse),
        (process_pdf_endpoint env generate filename).success = true →
        (process_pdf_endpoint env generate filename).results[i]? = some r →
        r.page_count = some (i + 1)) ∧
    (∀ (Img : Type) (decodeImage : Except String Img)
        (generate : Img → Except String String),
        ((process_image_endpoint decodeImage generate).success = true →
          (process_image_endpoint decodeImage generate).page_count = some 1) ∧
        ((process_image_endpoint decodeImage generate).success = false →
          (process_image_endpoint decodeImage generate).page_count = none)) := by
  constructor
  · intro Page Img env generate filename i r hs h
    revert hs h
    unfold process_pdf_endpoint
    cases hr : (pdf_to_images_high_quality env 144).1 with
    | error e => intro hs _; simp at hs
    | ok images =>
      cases images with
      | nil => intro hs _; simp at hs
      | cons a rest =>
        intro _ h
        simp only [List.isEmpty_cons, if_neg] at h
        simpa using pageLoop_page_count generate (a :: rest) 0 i r h
  · intro Img decodeImage generate
    cases decodeImage with
    | error e =>
      exact ⟨fun hs => by simp [process_image_endpoint] at hs, fun _ => rfl⟩
    | ok img =>
      cases hp : process_single_image generate img with
      | error e =>
        refine ⟨fun hs => ?_, fun _ => ?_⟩
        · simp [process_image_endpoint, hp] at hs
        · simp [process_image_endpoint, hp]
      | ok result =>
        refine ⟨fun _ => ?_, fun hs => ?_⟩
        · simp [process_image_endpoint, hp]
        · simp [process_image_endpoint, hp] at hs

/-- Witness for C10, discharging its hypotheses on the 3-page document
(page at index 2 carries page_count 3) and on a decodable single
image. -/
theorem c10_page_count_one_based_witness :
    ({ success := true, result := some "text2", page_count := some 3 } :
        OCRResponse).page_count = some 3 ∧
    (process_image_endpoint (.ok ()) (fun _ : Unit => .ok "t")).page_count = some 1 :=
  ⟨c10_page_count_one_based.1 Nat Nat threePageEnv secondPageFails "doc.pdf" 2
      { success := true, result := some "text2", page_count := some 3 } rfl (by decide),
   (c10_page_count_one_based.2 Unit (.ok ()) (fun _ => .ok "t")).1 rfl⟩

end OCRServer
